import Mathlib

/-!
Verification of the `sd-model-sync` core against its specification.

This file gives a shallow embedding of the program's core components:

* `src/link.rs`  — symlink reconciliation (`create_symlink`,
  `should_skip_existing_link`, `remove_existing_path`,
  `ensure_parent_directory`, the unix `symlink` call);
* `src/configuration.rs` — `FolderStructure` and `soft_link_to`;
* `src/api.rs`   — the hash cache (`lookup_cached_model_hash`,
  `cache_model_hash`), `get_model_info`, `move_orphan_model`,
  `get_orphan_models`, `sort_models`;
* `src/civitai.rs` — the `ModelInfo` data model with its serde
  deserialization behaviour (including `deny_unknown_fields`) and
  `query_model_info`.

Filesystem paths are modelled as lists of components; the filesystem is an
association list from paths to entries.  Machine-level effects (open, rename,
symlink(2), remove) are modelled by explicit state passing, following the
semantics of the Rust standard library calls used by the source:
`Path::exists` and `Path::is_dir` follow symbolic links, `fs::read_link` does
not, `fs::remove_dir_all` removes a symlink itself without following it, and
`std::os::unix::fs::symlink` fails with `EEXIST` whenever any entry (even a
dangling symlink) occupies the target path.
-/

namespace SdModelSync

/-- A filesystem path, as a list of components. -/
abbrev FsPath := List String

/-- A filesystem entry: a regular file, a directory, or a symbolic link
recording its target path. -/
inductive FsEntry where
  | file : FsEntry
  | dir : FsEntry
  | symlink (target : FsPath) : FsEntry
deriving DecidableEq

/-- The filesystem, an association list from paths to entries
(first match wins). -/
abbrev Fs := List (FsPath × FsEntry)

/-- Look up the entry at a path. -/
def fsLookup : Fs → FsPath → Option FsEntry
  | [], _ => none
  | e :: rest, p => if e.1 = p then some e.2 else fsLookup rest p

/-- Remove the entry at exactly the given path. -/
def fsErase : Fs → FsPath → Fs
  | [], _ => []
  | e :: rest, p => if e.1 = p then fsErase rest p else e :: fsErase rest p

/-- Remove the entry at the given path together with everything below it
(the effect of `fs::remove_dir_all` on a directory). -/
def fsEraseSubtree : Fs → FsPath → Fs
  | [], _ => []
  | e :: rest, p => if p <+: e.1 then fsEraseSubtree rest p else e :: fsEraseSubtree rest p

/-- Maximum number of symlink hops the OS resolves (`SYMLOOP_MAX`-style
bound used to make resolution terminate). -/
def maxSymlinkHops : Nat := 40

/-- Semantics of `Path::exists`: resolve the entry at the path, following
symbolic links; a dangling symlink reports `false`. -/
def resolveExists : Nat → Fs → FsPath → Bool
  | 0, _, _ => false
  | fuel + 1, fs, p =>
    match fsLookup fs p with
    | none => false
    | some .file => true
    | some .dir => true
    | some (.symlink t) => resolveExists fuel fs t

/-- Semantics of `Path::is_dir`: resolve the entry at the path, following
symbolic links, and report whether it is a directory. -/
def resolveIsDir : Nat → Fs → FsPath → Bool
  | 0, _, _ => false
  | fuel + 1, fs, p =>
    match fsLookup fs p with
    | none => false
    | some .file => false
    | some .dir => true
    | some (.symlink t) => resolveIsDir fuel fs t

/-- Semantics of `fs::read_link`: returns the recorded target of a symlink
entry without following it, and fails on any other entry. -/
def readLink (fs : Fs) (p : FsPath) : Option FsPath :=
  match fsLookup fs p with
  | some (.symlink t) => some t
  | _ => none

/-- Translation of `should_skip_existing_link` (src/link.rs, unix branch):
skip when the target exists and is a symlink whose recorded target equals
the source. -/
def should_skip_existing_link (fs : Fs) (source target : FsPath) : Bool :=
  if resolveExists maxSymlinkHops fs target then
    match readLink fs target with
    | some linkTarget => decide (linkTarget = source)
    | none => false
  else false

/-- Translation of `remove_existing_path` (src/link.rs): `remove_dir_all`
when `path.is_dir()`, else `remove_file`.  `remove_dir_all` on a symlink
removes the symlink itself; on a directory it removes the whole subtree.
The error, when any, is returned alongside the unchanged filesystem. -/
def remove_existing_path (fs : Fs) (p : FsPath) : Fs × Option String :=
  if resolveIsDir maxSymlinkHops fs p then
    match fsLookup fs p with
    | some (.symlink _) => (fsErase fs p, none)
    | some .dir => (fsEraseSubtree fs p, none)
    | _ => (fs, some "remove_dir_all failed")
  else
    match fsLookup fs p with
    | some .dir => (fs, some "remove_file failed")
    | some _ => (fsErase fs p, none)
    | none => (fs, some "remove_file failed")

/-- The parent of a path (`Path::parent`). -/
def parentPath (p : FsPath) : FsPath := p.dropLast

/-- Semantics of `fs::create_dir_all`: create every missing ancestor
directory of the path, in root-to-leaf order. -/
def createDirAll (fs : Fs) (p : FsPath) : Fs :=
  p.inits.foldl
    (fun acc q =>
      if q = [] then acc
      else match fsLookup acc q with
        | none => (q, FsEntry.dir) :: acc
        | some _ => acc)
    fs

/-- Translation of `ensure_parent_directory` (src/link.rs): create the
target's parent directories when the parent does not exist. -/
def ensure_parent_directory (fs : Fs) (p : FsPath) : Fs :=
  let par := parentPath p
  if resolveExists maxSymlinkHops fs par then fs else createDirAll fs par

/-- Semantics of `std::os::unix::fs::symlink`: fails with `EEXIST` when any
entry (including a dangling symlink) already occupies the target path. -/
def unixSymlink (fs : Fs) (source target : FsPath) : Fs × Option String :=
  match fsLookup fs target with
  | none => ((target, FsEntry.symlink source) :: fs, none)
  | some _ => (fs, some "EEXIST")

/-- Translation of `create_symlink` (src/link.rs): skip when the existing
link is already correct; otherwise remove the target if `target.exists()`,
ensure the parent directory, and create the symlink. -/
def create_symlink (fs : Fs) (source target : FsPath) : Fs × Option String :=
  if should_skip_existing_link fs source target then (fs, none)
  else
    match (if resolveExists maxSymlinkHops fs target
           then remove_existing_path fs target
           else (fs, none)) with
    | (fs1, some e) => (fs1, some e)
    | (fs1, none) =>
      let fs2 := ensure_parent_directory fs1 target
      unixSymlink fs2 source target

/-- Process a list of (canonical, target) category pairs in order, stopping
at the first failure (the `?` in `soft_link_to`'s loop). -/
def softLinkPairs : Fs → List (FsPath × FsPath) → Fs × Option String
  | fs, [] => (fs, none)
  | fs, (s, t) :: rest =>
    match create_symlink fs s t with
    | (fs1, none) => softLinkPairs fs1 rest
    | (fs1, some e) => (fs1, some e)

/-- Translation of `FolderStructure` (src/configuration.rs): the six
category paths. -/
structure FolderStructure where
  checkpoints : FsPath
  loras : FsPath
  controlnet : FsPath
  upscale_models : FsPath
  vae : FsPath
  embeddings : FsPath
deriving DecidableEq

/-- The (canonical, target) pairs in the order `soft_link_to` processes
them (src/configuration.rs, lines 62-69). -/
def linkPairs (a b : FolderStructure) : List (FsPath × FsPath) :=
  [(a.checkpoints, b.checkpoints), (a.loras, b.loras),
   (a.controlnet, b.controlnet), (a.upscale_models, b.upscale_models),
   (a.vae, b.vae), (a.embeddings, b.embeddings)]

/-- Translation of `FolderStructure::soft_link_to` (src/configuration.rs). -/
def soft_link_to (a b : FolderStructure) (fs : Fs) : Fs × Option String :=
  softLinkPairs fs (linkPairs a b)

/-! ## Hash cache (src/api.rs) -/

/-- Translation of `APIError` (src/api.rs, lines 25-33). -/
inductive APIError where
  | modelNotFound (msg : String)
  | serdeJson (msg : String)
  | eldenError (msg : String)
  | civitAiError (msg : String)
  | io (msg : String)
  | unspecified (msg : String)
deriving DecidableEq

/-- Parsed contents of the cache JSON document: an association list from
model path to digest string (a `HashMap<String, String>` in the source). -/
abbrev CacheDoc := List (FsPath × String)

/-- On-disk state of the cache file: absent, present but not a well-formed
cache document, or present with parsed contents. -/
inductive CacheFileState where
  | absent
  | corrupt
  | doc (m : CacheDoc)
deriving DecidableEq

/-- Look up a key in the cache document (first match wins). -/
def lookupDoc : CacheDoc → FsPath → Option String
  | [], _ => none
  | e :: rest, p => if e.1 = p then some e.2 else lookupDoc rest p

/-- The document obtained by reading an existing (possibly empty or
malformed) cache file: `serde_json::from_reader(..).unwrap_or_default()`. -/
def readDoc : CacheFileState → CacheDoc
  | .absent => []
  | .corrupt => []
  | .doc m => m

/-- Translation of `lookup_cached_model_hash` (src/api.rs, lines 82-101).
Opening the cache file read-only fails with an IO error when the file is
absent (`From<std::io::Error> for APIError` produces `Io("IO error")`);
otherwise a malformed document is treated as empty and a missing key yields
`ModelNotFound`.  The returned state is the unchanged cache file (the
read-only open never creates it). -/
def lookup_cached_model_hash (model : FsPath) (st : CacheFileState) :
    Except APIError String × CacheFileState :=
  match st with
  | .absent => (.error (.io "IO error"), .absent)
  | _ =>
    match lookupDoc (readDoc st) model with
    | some hash => (.ok hash, st)
    | none => (.error (.modelNotFound "Model not found in cache"), st)

/-- Insert a key only when it is vacant
(`if let Entry::Vacant(entry) = data.entry(..)` in the source). -/
def insertIfAbsent (m : CacheDoc) (p : FsPath) (hash : String) : CacheDoc :=
  match lookupDoc m p with
  | some _ => m
  | none => (p, hash) :: m

/-- Translation of `cache_model_hash` (src/api.rs, lines 103-132): open or
create the cache file, parse it (empty map when missing or corrupt), insert
the digest only if the path is absent, then truncate and rewrite the whole
document. -/
def cache_model_hash (hash : String) (model : FsPath) (st : CacheFileState) :
    CacheFileState :=
  .doc (insertIfAbsent (readDoc st) model hash)

/-! ## CivitAI metadata model (src/civitai.rs)

JSON values are modelled inductively; numbers are modelled as integers
(the program never computes with the two `f64` fields, it only carries
them).  The decoders below follow serde's derive semantics at the level of
outcomes: a missing `Option` field or a JSON `null` yields `none`, a missing
required field or an ill-typed value is an error, duplicate keys are an
error, unknown fields are ignored — except on `ModelInfo`, which is declared
with `#[serde(deny_unknown_fields)]`, so an unrecognized top-level field is
an error. -/

/-- A JSON value. -/
inductive Json where
  | null
  | bool (b : Bool)
  | num (n : Int)
  | str (s : String)
  | arr (elems : List Json)
  | obj (fields : List (String × Json))

/-- First value bound to a key in a JSON object. -/
def lookupField : List (String × Json) → String → Option Json
  | [], _ => none
  | f :: rest, k => if f.1 = k then some f.2 else lookupField rest k

/-- Whether a key list has no duplicates (serde rejects duplicate fields). -/
def nodupKeys : List String → Bool
  | [] => true
  | k :: rest => !rest.contains k && nodupKeys rest

/-- Decode a JSON string. -/
def decodeString : Json → Option String
  | .str s => some s
  | _ => none

/-- Decode a JSON boolean. -/
def decodeBool : Json → Option Bool
  | .bool b => some b
  | _ => none

/-- Decode a `u64` field. -/
def decodeU64 : Json → Option Nat
  | .num n => if 0 ≤ n ∧ n < 2 ^ 64 then some n.toNat else none
  | _ => none

/-- Decode a `u32` field. -/
def decodeU32 : Json → Option Nat
  | .num n => if 0 ≤ n ∧ n < 2 ^ 32 then some n.toNat else none
  | _ => none

/-- Decode an `f64` field (carried, never computed with; modelled as the
integer payload of the JSON number). -/
def decodeF64 : Json → Option Int
  | .num n => some n
  | _ => none

/-- Decode an `Option<T>` value: `null` becomes `none`. -/
def decodeOpt (d : Json → Option α) : Json → Option (Option α)
  | .null => some none
  | v => (d v).map some

/-- Decode a required field of an object. -/
def reqField (o : List (String × Json)) (k : String) (d : Json → Option α) :
    Option α :=
  (lookupField o k).bind d

/-- Decode an optional (`Option<T>`) field of an object: a missing field
becomes `none`. -/
def optField (o : List (String × Json)) (k : String) (d : Json → Option α) :
    Option (Option α) :=
  match lookupField o k with
  | none => some none
  | some v => decodeOpt d v

/-- Decode a `Vec<T>` value. -/
def decodeVec (d : Json → Option α) : Json → Option (List α)
  | .arr xs => xs.mapM d
  | _ => none

/-- Translation of `ModelType` (src/civitai.rs, lines 117-126); the `Lora`
variant is serde-renamed to `"LORA"`. -/
inductive ModelType where
  | checkpoint
  | embedding
  | lora
  | controlnet
  | upscaler
  | vae
deriving DecidableEq

/-- Translation of `ModelType::general_directory` (src/civitai.rs,
lines 142-151). -/
def ModelType.general_directory : ModelType → String
  | .checkpoint => "checkpoints"
  | .embedding => "embeddings"
  | .lora => "loras"
  | .controlnet => "controlnet"
  | .upscaler => "upscale_models"
  | .vae => "vae"

/-- Decode `ModelType` from its serde string representation. -/
def decodeModelType : Json → Option ModelType
  | .str "Checkpoint" => some .checkpoint
  | .str "Embedding" => some .embedding
  | .str "LORA" => some .lora
  | .str "Controlnet" => some .controlnet
  | .str "Upscaler" => some .upscaler
  | .str "Vae" => some .vae
  | _ => none

/-- Translation of `Stats` (src/civitai.rs, lines 97-106). -/
structure Stats where
  download_count : Nat
  rating_count : Nat
  rating : Int
  thumbs_up_count : Nat

/-- Translation of `ModelData` (src/civitai.rs, lines 108-115). -/
structure ModelData where
  name : Option String
  model_type : ModelType
  nsfw : Bool
  poi : Bool

/-- Translation of `EarlyAccessConfig` (src/civitai.rs, lines 90-95), an
untagged union of a string and a map. -/
inductive EarlyAccessConfig where
  | string (s : String)
  | map (m : List (String × Json))

/-- Translation of `FileMetadata` (src/civitai.rs, lines 194-199). -/
structure FileMetadata where
  format : Option String
  size : Option String
  fp : Option String

/-- Translation of `FileHashes` (src/civitai.rs, lines 201-215). -/
structure FileHashes where
  auto_v1 : Option String
  auto_v2 : Option String
  sha256 : Option String
  crc32 : Option String
  blake3 : Option String
  auto_v3 : Option String

/-- Translation of `File` (src/civitai.rs, lines 169-192). -/
structure File where
  id : Nat
  size_kb : Int
  name : Option String
  file_type : Option String
  pickle_scan_result : Option String
  pickle_scan_message : Option String
  virus_scan_result : Option String
  virus_scan_message : Option String
  scanned_at : Option String
  metadata : FileMetadata
  hashes : FileHashes
  primary : Bool
  download_url : Option String

/-- Translation of `ImageMetadata` (src/civitai.rs, lines 240-246). -/
structure ImageMetadata where
  hash : Option String
  size : Option Nat
  width : Option Nat
  height : Option Nat

/-- Translation of `Image` (src/civitai.rs, lines 217-238); `meta` is an
arbitrarily-structured value. -/
structure Image where
  url : Option String
  nsfw_level : Nat
  width : Nat
  height : Nat
  hash : Option String
  image_type : Option String
  metadata : ImageMetadata
  meta : Json
  availability : Option String
  has_meta : Bool
  has_positive_prompt : Bool
  on_site : Bool
  remix_of_id : Option Nat

/-- Translation of `ModelInfo` (src/civitai.rs, lines 47-88). -/
structure ModelInfo where
  id : Nat
  model_id : Nat
  name : Option String
  created_at : Option String
  updated_at : Option String
  status : Option String
  published_at : Option String
  trained_words : List (Option String)
  training_status : Option String
  training_details : Option String
  base_model : Option String
  base_model_type : Option String
  early_access_ends_at : Option String
  early_access_config : Option EarlyAccessConfig
  description : Option String
  upload_type : Option String
  usage_control : Option String
  air : Option String
  stats : Stats
  model_info : ModelData
  files : List File
  images : List Image
  download_url : Option String

/-- Decode `Stats`. -/
def decodeStats : Json → Option Stats
  | .obj o =>
    if nodupKeys (o.map Prod.fst) then do
      let dc ← reqField o "downloadCount" decodeU64
      let rc ← reqField o "ratingCount" decodeU64
      let r ← reqField o "rating" decodeF64
      let tu ← reqField o "thumbsUpCount" decodeU64
      some { download_count := dc, rating_count := rc, rating := r,
             thumbs_up_count := tu }
    else none
  | _ => none

/-- Decode `ModelData`. -/
def decodeModelData : Json → Option ModelData
  | .obj o =>
    if nodupKeys (o.map Prod.fst) then do
      let nm ← optField o "name" decodeString
      let ty ← reqField o "type" decodeModelType
      let ns ← reqField o "nsfw" decodeBool
      let po ← reqField o "poi" decodeBool
      some { name := nm, model_type := ty, nsfw := ns, poi := po }
    else none
  | _ => none

/-- Decode the untagged `EarlyAccessConfig`. -/
def decodeEarlyAccessConfig : Json → Option EarlyAccessConfig
  | .str s => some (.string s)
  | .obj o => some (.map o)
  | _ => none

/-- Decode `FileMetadata`. -/
def decodeFileMetadata : Json → Option FileMetadata
  | .obj o =>
    if nodupKeys (o.map Prod.fst) then do
      let fm ← optField o "format" decodeString
      let sz ← optField o "size" decodeString
      let fp ← optField o "fp" decodeString
      some { format := fm, size := sz, fp := fp }
    else none
  | _ => none

/-- Decode `FileHashes`. -/
def decodeFileHashes : Json → Option FileHashes
  | .obj o =>
    if nodupKeys (o.map Prod.fst) then do
      let a1 ← optField o "AutoV1" decodeString
      let a2 ← optField o "AutoV2" decodeString
      let sh ← optField o "SHA256" decodeString
      let cr ← optField o "CRC32" decodeString
      let bl ← optField o "BLAKE3" decodeString
      let a3 ← optField o "AutoV3" decodeString
      some { auto_v1 := a1, auto_v2 := a2, sha256 := sh, crc32 := cr,
             blake3 := bl, auto_v3 := a3 }
    else none
  | _ => none

/-- Decode `File`. -/
def decodeFile : Json → Option File
  | .obj o =>
    if nodupKeys (o.map Prod.fst) then do
      let i ← reqField o "id" decodeU64
      let sk ← reqField o "sizeKB" decodeF64
      let nm ← optField o "name" decodeString
      let ft ← optField o "type" decodeString
      let pr ← optField o "pickleScanResult" decodeString
      let pm ← optField o "pickleScanMessage" decodeString
      let vr ← optField o "virusScanResult" decodeString
      let vm ← optField o "virusScanMessage" decodeString
      let sa ← optField o "scannedAt" decodeString
      let md ← reqField o "metadata" decodeFileMetadata
      let hs ← reqField o "hashes" decodeFileHashes
      let pri ← reqField o "primary" decodeBool
      let du ← optField o "downloadUrl" decodeString
      some { id := i, size_kb := sk, name := nm, file_type := ft,
             pickle_scan_result := pr, pickle_scan_message := pm,
             virus_scan_result := vr, virus_scan_message := vm,
             scanned_at := sa, metadata := md, hashes := hs, primary := pri,
             download_url := du }
    else none
  | _ => none

/-- Decode `ImageMetadata`. -/
def decodeImageMetadata : Json → Option ImageMetadata
  | .obj o =>
    if nodupKeys (o.map Prod.fst) then do
      let h ← optField o "hash" decodeString
      let sz ← optField o "size" decodeU64
      let w ← optField o "width" decodeU32
      let hg ← optField o "height" decodeU32
      some { hash := h, size := sz, width := w, height := hg }
    else none
  | _ => none

/-- Decode `Image`; the `meta` field accepts any JSON value. -/
def decodeImage : Json → Option Image
  | .obj o =>
    if nodupKeys (o.map Prod.fst) then do
      let u ← optField o "url" decodeString
      let nl ← reqField o "nsfwLevel" decodeU32
      let w ← reqField o "width" decodeU32
      let hg ← reqField o "height" decodeU32
      let h ← optField o "hash" decodeString
      let it ← optField o "type" decodeString
      let md ← reqField o "metadata" decodeImageMetadata
      let me ← reqField o "meta" some
      let av ← optField o "availability" decodeString
      let hm ← reqField o "hasMeta" decodeBool
      let hp ← reqField o "hasPositivePrompt" decodeBool
      let os ← reqField o "onSite" decodeBool
      let ri ← optField o "remixOfId" decodeU64
      some { url := u, nsfw_level := nl, width := w, height := hg, hash := h,
             image_type := it, metadata := md, meta := me, availability := av,
             has_meta := hm, has_positive_prompt := hp, on_site := os,
             remix_of_id := ri }
    else none
  | _ => none

/-- The serde field names `ModelInfo` recognizes; with
`deny_unknown_fields`, any other top-level field is a deserialization
error. -/
def knownModelInfoFields : List String :=
  ["id", "modelId", "name", "createdAt", "updatedAt", "status",
   "publishedAt", "trainedWords", "trainingStatus", "trainingDetails",
   "baseModel", "baseModelType", "earlyAccessEndsAt", "earlyAccessConfig",
   "description", "uploadType", "usageControl", "air", "stats", "model",
   "files", "images", "downloadUrl"]

/-- Fields `id` through `publishedAt` of a `ModelInfo` object. -/
def decodeModelInfoPart1 (o : List (String × Json)) :
    Option (Nat × Nat × Option String × Option String × Option String ×
      Option String × Option String) := do
  let i ← reqField o "id" decodeU64
  let mi ← reqField o "modelId" decodeU64
  let nm ← optField o "name" decodeString
  let ca ← optField o "createdAt" decodeString
  let ua ← optField o "updatedAt" decodeString
  let st ← optField o "status" decodeString
  let pa ← optField o "publishedAt" decodeString
  some (i, mi, nm, ca, ua, st, pa)

/-- Fields `trainedWords` through `earlyAccessEndsAt` of a `ModelInfo`
object. -/
def decodeModelInfoPart2 (o : List (String × Json)) :
    Option (List (Option String) × Option String × Option String ×
      Option String × Option String × Option String) := do
  let tw ← reqField o "trainedWords" (decodeVec (decodeOpt decodeString))
  let ts ← optField o "trainingStatus" decodeString
  let td ← optField o "trainingDetails" decodeString
  let bm ← optField o "baseModel" decodeString
  let bt ← optField o "baseModelType" decodeString
  let ea ← optField o "earlyAccessEndsAt" decodeString
  some (tw, ts, td, bm, bt, ea)

/-- Fields `earlyAccessConfig` through `air` of a `ModelInfo` object. -/
def decodeModelInfoPart3 (o : List (String × Json)) :
    Option (Option EarlyAccessConfig × Option String × Option String ×
      Option String × Option String) := do
  let ec ← optField o "earlyAccessConfig" decodeEarlyAccessConfig
  let de ← optField o "description" decodeString
  let ut ← optField o "uploadType" decodeString
  let uc ← optField o "usageControl" decodeString
  let ai ← optField o "air" decodeString
  some (ec, de, ut, uc, ai)

/-- Fields `stats` through `downloadUrl` of a `ModelInfo` object. -/
def decodeModelInfoPart4 (o : List (String × Json)) :
    Option (Stats × ModelData × List File × List Image × Option String) := do
  let sts ← reqField o "stats" decodeStats
  let mdl ← reqField o "model" decodeModelData
  let fls ← reqField o "files" (decodeVec decodeFile)
  let ims ← reqField o "images" (decodeVec decodeImage)
  let du ← optField o "downloadUrl" decodeString
  some (sts, mdl, fls, ims, du)

/-- Decode `ModelInfo`, the shape of a 2xx metadata response body.  Because
of `#[serde(deny_unknown_fields)]` the decode fails when any top-level field
is not in `knownModelInfoFields`. -/
def decodeModelInfo : Json → Option ModelInfo
  | .obj o =>
    if nodupKeys (o.map Prod.fst) then
      if o.all (fun kv => knownModelInfoFields.contains kv.1) then do
        let (i, mi, nm, ca, ua, st, pa) ← decodeModelInfoPart1 o
        let (tw, ts, td, bm, bt, ea) ← decodeModelInfoPart2 o
        let (ec, de, ut, uc, ai) ← decodeModelInfoPart3 o
        let (sts, mdl, fls, ims, du) ← decodeModelInfoPart4 o
        some (ModelInfo.mk i mi nm ca ua st pa tw ts td bm bt ea ec de ut uc
          ai sts mdl fls ims du)
      else none
    else none
  | _ => none

/-! ## Metadata resolution (src/civitai.rs, `query_model_info`) -/

/-- Translation of `CivitAiError` (src/civitai.rs, lines 10-14): the only
two variants are `Reqwest` and `Unspecified`. -/
inductive CivitAiError where
  | reqwest (msg : String)
  | unspecified (msg : String)
deriving DecidableEq

/-- The `Display` rendering of `CivitAiError` (src/civitai.rs,
lines 16-23). -/
def CivitAiError.toMessage : CivitAiError → String
  | .reqwest s => "Reqwest: " ++ s
  | .unspecified s => "Unspecified: " ++ s

/-- Outcome of the single blocking HTTP request: either a transport-level
failure (`reqwest::blocking::get` returns `Err`) or a response with a status
code and a body. -/
inductive HttpOutcome where
  | transportError
  | response (status : Nat) (body : Json)

/-- The `Display` rendering of the status code interpolated into the 5xx
error message (the reason phrase is omitted in this model). -/
def statusDisplay (s : Nat) : String := toString s

/-- Translation of `query_model_info` (src/civitai.rs, lines 441-455):
transport failure yields `Unspecified("Failed to query Civitai")`; a 2xx
response is deserialized (a decode failure is a `Reqwest` error, coming from
`resp.json()`); a 5xx response yields `Unspecified("Civitai Error: ..")`;
every other status yields `Unspecified("Model not found")`. -/
def query_model_info : HttpOutcome → Except CivitAiError ModelInfo
  | .transportError => .error (.unspecified "Failed to query Civitai")
  | .response status body =>
    if 200 ≤ status ∧ status ≤ 299 then
      match decodeModelInfo body with
      | some info => .ok info
      | none => .error (.reqwest "error decoding response body")
    else if 500 ≤ status ∧ status ≤ 599 then
      .error (.unspecified ("Civitai Error: " ++ statusDisplay status))
    else
      .error (.unspecified "Model not found")

/-! ## Pipeline (src/api.rs) -/

/-- Semantics of `Path::file_name`: the last component, ignoring empty and
`"."` components; `".."` has no file name. -/
def fileName (p : FsPath) : Option String :=
  match (p.filter (fun c => c != "." && c != "")).getLast? with
  | none => none
  | some c => if c = ".." then none else some c

/-- Conversion of a `CivitAiError` into an `APIError`
(`From<CivitAiError> for APIError`, src/api.rs, lines 72-76). -/
def toAPIResult : Except CivitAiError ModelInfo → Except APIError ModelInfo
  | .ok info => .ok info
  | .error e => .error (.civitAiError e.toMessage)

/-- Translation of `get_model_info` (src/api.rs, lines 134-158).  The
resolver is the network oracle (digest to HTTP outcome) and the hasher is
the content-hashing oracle (`EldenRing::from_file`).  On a cache miss (any
lookup error) the hash is computed, stored in the cache, and only then is
the remote query performed. -/
def get_model_info (resolver : String → HttpOutcome)
    (hasher : FsPath → Except String String) (model : FsPath)
    (cache : CacheFileState) : Except APIError ModelInfo × CacheFileState :=
  match (lookup_cached_model_hash model cache).1 with
  | .ok hash => (toAPIResult (query_model_info (resolver hash)), cache)
  | .error _ =>
    match hasher model with
    | .error e => (.error (.eldenError e), cache)
    | .ok hash =>
      let cache1 := cache_model_hash hash model cache
      (toAPIResult (query_model_info (resolver hash)), cache1)

/-- Model of `str::to_lowercase`, applied characterwise (the Unicode
special cases do not arise for the labels the program handles). -/
def toLowercase (s : String) : String := ⟨s.data.map Char.toLower⟩

/-- Translation of `move_orphan_model` (src/api.rs, lines 160-189) over the
set of existing model-file paths: the destination is
`destination / general_directory(model_type) / lowercase(base_model) /
file_name`, and the rename fails when the source file is absent. -/
def move_orphan_model (files : List FsPath) (orphan destination : FsPath)
    (model_type : ModelType) (base_model : String) :
    Except APIError (List FsPath) :=
  let model_type_name := model_type.general_directory
  let base_model_name := toLowercase base_model
  match fileName orphan with
  | none => .error (.modelNotFound "Error getting file name")
  | some file_name =>
    let new_path := destination ++ [model_type_name, base_model_name, file_name]
    if files.contains orphan then
      .ok (new_path :: files.erase orphan)
    else
      .error (.io "IO error")

/-- A directory entry as observed by `read_dir`: its file name and whether
`path.is_dir()` holds for it. -/
structure DirEntryModel where
  name : String
  is_dir : Bool
deriving DecidableEq

/-- Split a character list at every `.` (the resulting segments, in
order; an empty input yields one empty segment). -/
def splitDots : List Char → List (List Char)
  | [] => [[]]
  | c :: rest =>
    let r := splitDots rest
    if c = '.' then [] :: r
    else match r with
      | [] => [[c]]
      | h :: t => (c :: h) :: t

/-- Semantics of `Path::extension` on a file name: the portion after the
last `.`, none when there is no `.` or only a leading one. -/
def extensionOf (fname : String) : Option String :=
  match splitDots fname.data with
  | [] => none
  | [_] => none
  | [] :: [_] => none
  | parts => parts.getLast?.map (fun cs => ⟨cs⟩)

/-- The extension whitelist of `get_orphan_models` (src/api.rs,
line 209). -/
def allowedExtensions : List String :=
  ["safetensors", "ckpt", "pt", "pth", "bin"]

/-- Translation of `get_orphan_models` (src/api.rs, lines 191-231).  The
`readDir` argument is the outcome of `root_path.read_dir()`: `none` when the
directory cannot be read (a fatal `ModelNotFound` error via `From<&str>`),
otherwise the iterator's entries, where an individual `none` entry is an
unreadable entry that is skipped.  Kept entries are those that are not
directories and whose extension is whitelisted; they are mapped to
`root.join(name)`. -/
def get_orphan_models (root : FsPath)
    (readDir : Option (List (Option DirEntryModel))) :
    Except APIError (List FsPath) :=
  match readDir with
  | none => .error (.modelNotFound "Error reading directory")
  | some entries =>
    let dir_entries := entries.filterMap id
    let orphan_model_entries := dir_entries.filter (fun e =>
      if !e.is_dir then
        allowedExtensions.contains ((extensionOf e.name).getD "")
      else false)
    .ok (orphan_model_entries.map (fun e => root ++ [e.name]))

/-- The base-model fallback used by `sort_models`
(`info.base_model.unwrap_or("Other".to_string())`, src/api.rs, line 240). -/
def baseModelFallback (b : Option String) : String := b.getD "Other"

/-- The mutable state `sort_models` acts on: the orphan cache file and the
set of existing model-file paths. -/
structure PipeWorld where
  cache : CacheFileState
  files : List FsPath
deriving DecidableEq

/-- One iteration of the `sort_models` loop (src/api.rs, lines 236-253):
resolve the file's metadata (possibly writing the hash cache) and relocate
it on success; on any error the file is left in place, the error is logged
and the loop continues. -/
def processOne (resolver : String → HttpOutcome)
    (hasher : FsPath → Except String String) (root : FsPath)
    (w : PipeWorld) (path : FsPath) : PipeWorld :=
  match get_model_info resolver hasher path w.cache with
  | (.ok info, cache1) =>
    let model_type := info.model_info.model_type
    let base_model := baseModelFallback info.base_model
    match move_orphan_model w.files path root model_type base_model with
    | .ok files1 => { cache := cache1, files := files1 }
    | .error _ => { cache := cache1, files := w.files }
  | (.error _, cache1) => { cache := cache1, files := w.files }

/-- Translation of `sort_models` (src/api.rs, lines 233-256): enumerate the
orphans (a failure there is the only fatal error), then process each in
order. -/
def sort_models (resolver : String → HttpOutcome)
    (hasher : FsPath → Except String String) (root : FsPath)
    (readDir : Option (List (Option DirEntryModel))) (w : PipeWorld) :
    Except APIError PipeWorld :=
  match get_orphan_models root readDir with
  | .error e => .error e
  | .ok orphans => .ok (orphans.foldl (processOne resolver hasher root) w)

/-! ## Specification-side definitions and scenario fixtures -/

/-- The scan result as the specification describes it: one output per
direct entry that is readable, is not a directory, and has a whitelisted
extension, in listing order. -/
def scanSpecList (root : FsPath) : List (Option DirEntryModel) → List FsPath
  | [] => []
  | none :: rest => scanSpecList root rest
  | some e :: rest =>
    if (if !e.is_dir
        then allowedExtensions.contains ((extensionOf e.name).getD "")
        else false)
    then (root ++ [e.name]) :: scanSpecList root rest
    else scanSpecList root rest

/-- Whether a lookup result is the cache-miss `ModelNotFound` error. -/
def isModelNotFoundResult : Except APIError String → Bool
  | .error (.modelNotFound _) => true
  | _ => false

/-- A minimal stats object. -/
def minimalStatsJson : Json :=
  .obj [("downloadCount", .num 0), ("ratingCount", .num 0),
        ("rating", .num 0), ("thumbsUpCount", .num 0)]

/-- A minimal model object. -/
def minimalModelDataJson : Json :=
  .obj [("type", .str "Checkpoint"), ("nsfw", .bool false),
        ("poi", .bool false)]

/-- A metadata body carrying exactly the required fields of `ModelInfo`
and no optional ones. -/
def minimalModelInfoFields : List (String × Json) :=
  [("id", .num 1), ("modelId", .num 2), ("trainedWords", .arr []),
   ("stats", minimalStatsJson), ("model", minimalModelDataJson),
   ("files", .arr []), ("images", .arr [])]

/-- The `CivitAiError` variant of the error of a resolution outcome
(`some true` for `Reqwest`, `some false` for `Unspecified`). -/
def errVariantTag : Except CivitAiError ModelInfo → Option Bool
  | .error (.reqwest _) => some true
  | .error (.unspecified _) => some false
  | .ok _ => none

/-- The canonical checkpoints directory in the C5 scenarios. -/
def c5Source : FsPath := ["m", "checkpoints"]

/-- The satellite checkpoints path in the C5 scenarios. -/
def c5Target : FsPath := ["c", "checkpoints"]

/-- Target occupied by a regular file. -/
def c5FsFile : Fs := [(c5Source, .dir), (["c"], .dir), (c5Target, .file)]

/-- Target occupied by a directory with a child. -/
def c5FsDir : Fs :=
  [(c5Source, .dir), (["c"], .dir), (c5Target, .dir),
   (c5Target ++ ["x"], .file)]

/-- Target occupied by a symlink to another existing directory. -/
def c5FsLive : Fs :=
  [(c5Source, .dir), (["other"], .dir), (["c"], .dir),
   (c5Target, .symlink ["other"])]

/-- Target occupied by a dangling symlink. -/
def c5FsDangling : Fs :=
  [(c5Source, .dir), (["c"], .dir), (c5Target, .symlink ["gone"])]

/-- Canonical taxonomy used in the C4 scenarios. -/
def c4Canonical : FolderStructure :=
  ⟨["m", "checkpoints"], ["m", "loras"], ["m", "controlnet"],
   ["m", "upscale_models"], ["m", "vae"], ["m", "embeddings"]⟩

/-- Satellite taxonomy used in the C4 scenarios. -/
def c4Satellite : FolderStructure :=
  ⟨["c", "checkpoints"], ["c", "loras"], ["c", "controlnet"],
   ["c", "upscale_models"], ["c", "vae"], ["c", "embeddings"]⟩

/-- A filesystem in which every canonical category path exists as a
directory. -/
def c4SourceFs : Fs :=
  [(["m", "checkpoints"], .dir), (["m", "loras"], .dir),
   (["m", "controlnet"], .dir), (["m", "upscale_models"], .dir),
   (["m", "vae"], .dir), (["m", "embeddings"], .dir)]

/-- Canonical taxonomy used in the C10 scenario. -/
def c10Canonical : FolderStructure :=
  ⟨["m", "checkpoints"], ["m", "loras"], ["m", "controlnet"],
   ["m", "upscale_models"], ["m", "vae"], ["m", "embeddings"]⟩

/-- Satellite taxonomy used in the C10 scenario. -/
def c10Satellite : FolderStructure :=
  ⟨["c", "checkpoints"], ["c", "loras"], ["c", "controlnet"],
   ["c", "upscale_models"], ["c", "vae"], ["c", "embeddings"]⟩

/-- Starting filesystem of the C10 scenario: all canonical categories are
directories, the satellite loras path is a dangling symlink (so its
reconciliation fails), and the satellite controlnet path holds a file. -/
def c10Fs : Fs :=
  [(["m", "checkpoints"], .dir), (["m", "loras"], .dir),
   (["m", "controlnet"], .dir), (["m", "upscale_models"], .dir),
   (["m", "vae"], .dir), (["m", "embeddings"], .dir),
   (["c"], .dir), (["c", "loras"], .symlink ["gone"]),
   (["c", "controlnet"], .file)]

/-- The categories before the failing one in the C10 scenario. -/
def c10Pre : List (FsPath × FsPath) :=
  [(["m", "checkpoints"], ["c", "checkpoints"])]

/-- The categories after the failing one in the C10 scenario. -/
def c10Post : List (FsPath × FsPath) :=
  [(["m", "controlnet"], ["c", "controlnet"]),
   (["m", "upscale_models"], ["c", "upscale_models"]),
   (["m", "vae"], ["c", "vae"]),
   (["m", "embeddings"], ["c", "embeddings"])]

/-- The filesystem after the successful prefix of the C10 scenario. -/
def c10FsPre : Fs := (softLinkPairs c10Fs c10Pre).1

/-! ## Helper lemmas -/

theorem lookupDoc_insertIfAbsent_absent (m : CacheDoc) (p : FsPath)
    (d : String) (h : lookupDoc m p = none) :
    lookupDoc (insertIfAbsent m p d) p = some d := by
  unfold insertIfAbsent
  rw [h]
  simp [lookupDoc]

theorem insertIfAbsent_present (m : CacheDoc) (p : FsPath) (d v : String)
    (h : lookupDoc m p = some v) :
    insertIfAbsent m p d = m := by
  unfold insertIfAbsent
  rw [h]

theorem cacheMiss_of_lookup_error (p : FsPath) (st : CacheFileState)
    (h : (lookup_cached_model_hash p st).1.isOk = false) :
    lookupDoc (readDoc st) p = none := by
  cases st with
  | absent => rfl
  | corrupt => rfl
  | doc m =>
    cases hd : lookupDoc m p with
    | none => exact hd
    | some v =>
      exfalso
      have hres : (lookup_cached_model_hash p (.doc m)).1 = .ok v := by
        unfold lookup_cached_model_hash
        simp [readDoc, hd]
      rw [hres] at h
      simp [Except.isOk, Except.toBool] at h

theorem fsLookup_fsErase_ne (fs : Fs) (t p : FsPath) (h : p ≠ t) :
    fsLookup (fsErase fs t) p = fsLookup fs p := by
  induction fs with
  | nil => rfl
  | cons e rest ih =>
    by_cases h1 : e.1 = t
    · rw [fsErase, if_pos h1, ih, fsLookup,
        if_neg (by rw [h1]; exact fun hh => h hh.symm)]
    · rw [fsErase, if_neg h1]
      by_cases h2 : e.1 = p
      · rw [fsLookup, if_pos h2, fsLookup, if_pos h2]
      · rw [fsLookup, if_neg h2, fsLookup, if_neg h2, ih]

theorem fsLookup_fsEraseSubtree (fs : Fs) (t p : FsPath) (h : ¬ t <+: p) :
    fsLookup (fsEraseSubtree fs t) p = fsLookup fs p := by
  induction fs with
  | nil => rfl
  | cons e rest ih =>
    by_cases h1 : t <+: e.1
    · have hne : e.1 ≠ p := fun hh => h (hh ▸ h1)
      rw [fsEraseSubtree, if_pos h1, ih, fsLookup, if_neg hne]
    · rw [fsEraseSubtree, if_neg h1]
      by_cases h2 : e.1 = p
      · rw [fsLookup, if_pos h2, fsLookup, if_pos h2]
      · rw [fsLookup, if_neg h2, fsLookup, if_neg h2, ih]

theorem fsLookup_cons_ne (e : FsPath × FsEntry) (fs : Fs) (p : FsPath)
    (h : e.1 ≠ p) : fsLookup (e :: fs) p = fsLookup fs p := by
  rw [fsLookup, if_neg h]

theorem createDirAll_frame (fs : Fs) (d p : FsPath) (h : ¬ p <+: d) :
    fsLookup (createDirAll fs d) p = fsLookup fs p := by
  have key : ∀ (l : List FsPath) (fs0 : Fs), (∀ q ∈ l, q ≠ p) →
      fsLookup (l.foldl (fun acc q =>
        if q = [] then acc
        else match fsLookup acc q with
          | none => (q, FsEntry.dir) :: acc
          | some _ => acc) fs0) p = fsLookup fs0 p := by
    intro l
    induction l with
    | nil => intro fs0 _; rfl
    | cons q rest ih =>
      intro fs0 hq
      rw [List.foldl_cons]
      rw [ih _ (fun r hr => hq r (List.mem_cons_of_mem _ hr))]
      by_cases h0 : q = []
      · rw [if_pos h0]
      · rw [if_neg h0]
        cases hl : fsLookup fs0 q with
        | none => exact fsLookup_cons_ne _ _ _ (hq q (List.mem_cons_self _ _))
        | some e => rfl
  refine key _ fs ?_
  intro q hq hqp
  exact h (hqp ▸ (List.mem_inits q d).mp hq)

theorem ensure_parent_frame (fs : Fs) (t p : FsPath) (h : ¬ p <+: t) :
    fsLookup (ensure_parent_directory fs t) p = fsLookup fs p := by
  unfold ensure_parent_directory
  by_cases he : resolveExists maxSymlinkHops fs (parentPath t) = true
  · rw [if_pos he]
  · rw [if_neg he]
    refine createDirAll_frame fs (parentPath t) p (fun hp => h ?_)
    exact hp.trans (List.dropLast_prefix t)

theorem unixSymlink_frame (fs : Fs) (s t p : FsPath) (h : p ≠ t) :
    fsLookup (unixSymlink fs s t).1 p = fsLookup fs p := by
  unfold unixSymlink
  cases hl : fsLookup fs t with
  | none => exact fsLookup_cons_ne _ _ _ (fun hh => h hh.symm)
  | some e => rfl

theorem remove_existing_frame (fs : Fs) (t p : FsPath) (h : ¬ t <+: p) :
    fsLookup (remove_existing_path fs t).1 p = fsLookup fs p := by
  have hne : p ≠ t := fun hh => h (hh ▸ List.prefix_refl p)
  unfold remove_existing_path
  by_cases hd : resolveIsDir maxSymlinkHops fs t = true
  · rw [if_pos hd]
    cases hl : fsLookup fs t with
    | none => rfl
    | some e =>
      cases e with
      | file => rfl
      | dir => exact fsLookup_fsEraseSubtree fs t p h
      | symlink q => exact fsLookup_fsErase_ne fs t p hne
  · rw [if_neg hd]
    cases hl : fsLookup fs t with
    | none => rfl
    | some e =>
      cases e with
      | file => exact fsLookup_fsErase_ne fs t p hne
      | dir => rfl
      | symlink q => exact fsLookup_fsErase_ne fs t p hne

theorem create_symlink_frame (fs : Fs) (s t p : FsPath)
    (h1 : ¬ t <+: p) (h2 : ¬ p <+: t) :
    fsLookup (create_symlink fs s t).1 p = fsLookup fs p := by
  have hne : p ≠ t := fun hh => h2 (hh ▸ List.prefix_refl p)
  unfold create_symlink
  by_cases hskip : should_skip_existing_link fs s t = true
  · rw [if_pos hskip]
  · rw [if_neg hskip]
    by_cases hex : resolveExists maxSymlinkHops fs t = true
    · rw [if_pos hex]
      cases hr : remove_existing_path fs t with
      | mk fs1 e1 =>
        have hfs1 : fsLookup fs1 p = fsLookup fs p := by
          have hfr := remove_existing_frame fs t p h1
          rw [hr] at hfr
          exact hfr
        cases e1 with
        | none =>
          show fsLookup (unixSymlink (ensure_parent_directory fs1 t) s t).1 p
            = _
          rw [unixSymlink_frame _ _ _ _ hne, ensure_parent_frame _ _ _ h2,
            hfs1]
        | some e => exact hfs1
    · rw [if_neg hex]
      show fsLookup (unixSymlink (ensure_parent_directory fs t) s t).1 p = _
      rw [unixSymlink_frame _ _ _ _ hne, ensure_parent_frame _ _ _ h2]

theorem resolveExists_step (fuel : Nat) (fs : Fs) (p : FsPath) :
    resolveExists (fuel + 1) fs p
      = (match fsLookup fs p with
         | none => false
         | some .file => true
         | some .dir => true
         | some (.symlink t) => resolveExists fuel fs t) := rfl

theorem skip_implies_link (fs : Fs) (s t : FsPath)
    (h : should_skip_existing_link fs s t = true) :
    fsLookup fs t = some (.symlink s) := by
  unfold should_skip_existing_link at h
  by_cases hex : resolveExists maxSymlinkHops fs t = true
  · rw [if_pos hex] at h
    unfold readLink at h
    cases hl : fsLookup fs t with
    | none => rw [hl] at h; exact absurd h Bool.false_ne_true
    | some e =>
      cases e with
      | file => rw [hl] at h; exact absurd h Bool.false_ne_true
      | dir => rw [hl] at h; exact absurd h Bool.false_ne_true
      | symlink q =>
        rw [hl] at h
        have hq : q = s := of_decide_eq_true h
        rw [hq]
  · rw [if_neg hex] at h
    exact absurd h Bool.false_ne_true

theorem skip_of_converged (fs : Fs) (s t : FsPath)
    (ht : fsLookup fs t = some (.symlink s))
    (hs : fsLookup fs s = some .dir) :
    should_skip_existing_link fs s t = true := by
  have hex : resolveExists maxSymlinkHops fs t = true := by
    rw [show maxSymlinkHops = 39 + 1 from rfl, resolveExists_step, ht]
    show resolveExists 39 fs s = true
    rw [show (39 : Nat) = 38 + 1 from rfl, resolveExists_step, hs]
  unfold should_skip_existing_link
  rw [if_pos hex]
  unfold readLink
  rw [ht]
  exact decide_eq_true rfl

theorem create_symlink_converged (fs : Fs) (s t : FsPath)
    (ht : fsLookup fs t = some (.symlink s))
    (hs : fsLookup fs s = some .dir) :
    create_symlink fs s t = (fs, none) := by
  unfold create_symlink
  rw [if_pos (skip_of_converged fs s t ht hs)]

theorem create_symlink_post (fs : Fs) (s t : FsPath)
    (h : (create_symlink fs s t).2 = none) :
    fsLookup (create_symlink fs s t).1 t = some (.symlink s) := by
  unfold create_symlink at h ⊢
  by_cases hskip : should_skip_existing_link fs s t = true
  · rw [if_pos hskip]
    exact skip_implies_link fs s t hskip
  · rw [if_neg hskip] at h ⊢
    by_cases hex : resolveExists maxSymlinkHops fs t = true
    · rw [if_pos hex] at h ⊢
      cases hr : remove_existing_path fs t with
      | mk fs1 e1 =>
        rw [hr] at h
        cases e1 with
        | none =>
          have h2 : (unixSymlink (ensure_parent_directory fs1 t) s t).2
              = none := h
          show fsLookup (unixSymlink (ensure_parent_directory fs1 t) s t).1 t
            = some (.symlink s)
          unfold unixSymlink at h2 ⊢
          cases hl : fsLookup (ensure_parent_directory fs1 t) t with
          | none =>
            show fsLookup ((t, FsEntry.symlink s)
              :: ensure_parent_directory fs1 t) t = some (.symlink s)
            rw [fsLookup, if_pos rfl]
          | some e =>
            rw [hl] at h2
            exact Option.noConfusion h2
        | some e => exact Option.noConfusion h
    · rw [if_neg hex] at h ⊢
      have h2 : (unixSymlink (ensure_parent_directory fs t) s t).2
          = none := h
      show fsLookup (unixSymlink (ensure_parent_directory fs t) s t).1 t
        = some (.symlink s)
      unfold unixSymlink at h2 ⊢
      cases hl : fsLookup (ensure_parent_directory fs t) t with
      | none =>
        show fsLookup ((t, FsEntry.symlink s)
          :: ensure_parent_directory fs t) t = some (.symlink s)
        rw [fsLookup, if_pos rfl]
      | some e =>
        rw [hl] at h2
        exact Option.noConfusion h2

theorem softLinkPairs_frame :
    ∀ (pairs : List (FsPath × FsPath)) (fs : Fs) (p : FsPath),
      (∀ pr ∈ pairs, ¬ pr.2 <+: p ∧ ¬ p <+: pr.2) →
      fsLookup (softLinkPairs fs pairs).1 p = fsLookup fs p := by
  intro pairs
  induction pairs with
  | nil => intro fs p _; rfl
  | cons hd rest ih =>
    intro fs p h
    obtain ⟨s, t⟩ := hd
    have hh := h (s, t) (List.mem_cons_self _ _)
    show fsLookup (match create_symlink fs s t with
      | (fs1, none) => softLinkPairs fs1 rest
      | (fs1, some e) => (fs1, some e)).1 p = _
    cases hc : create_symlink fs s t with
    | mk fs1 e1 =>
      have hframe : fsLookup fs1 p = fsLookup fs p := by
        have hfr := create_symlink_frame fs s t p hh.1 hh.2
        rw [hc] at hfr
        exact hfr
      cases e1 with
      | none =>
        rw [ih fs1 p (fun pr hpr => h pr (List.mem_cons_of_mem _ hpr))]
        exact hframe
      | some e => exact hframe

theorem softLinkPairs_success_post :
    ∀ (pairs : List (FsPath × FsPath)) (fs fs1 : Fs),
      (∀ pr ∈ pairs, fsLookup fs pr.1 = some .dir) →
      (∀ pr ∈ pairs, ∀ pr' ∈ pairs, ¬ pr'.1 <+: pr.2 ∧ ¬ pr.2 <+: pr'.1) →
      List.Pairwise (fun pr pr' => ¬ pr.2 <+: pr'.2 ∧ ¬ pr'.2 <+: pr.2)
        pairs →
      softLinkPairs fs pairs = (fs1, none) →
      ∀ pr ∈ pairs, fsLookup fs1 pr.2 = some (.symlink pr.1) ∧
        fsLookup fs1 pr.1 = some .dir := by
  intro pairs
  induction pairs with
  | nil =>
    intro fs fs1 _ _ _ _ pr hpr
    exact absurd hpr (List.not_mem_nil _)
  | cons hd rest ih =>
    intro fs fs1 hdirs hsep hpw hrun pr hpr
    obtain ⟨s, t⟩ := hd
    have hstep : softLinkPairs fs ((s, t) :: rest)
        = (match create_symlink fs s t with
           | (fsA, none) => softLinkPairs fsA rest
           | (fsA, some e) => (fsA, some e)) := rfl
    rw [hstep] at hrun
    cases hc : create_symlink fs s t with
    | mk fsA e1 =>
      rw [hc] at hrun
      cases e1 with
      | some e =>
        have hrun2 : ((fsA, some e) : Fs × Option String) = (fs1, none) :=
          hrun
        exact absurd (congrArg Prod.snd hrun2) (by simp)
      | none =>
        have hrun2 : softLinkPairs fsA rest = (fs1, none) := hrun
        have hpost : fsLookup fsA t = some (.symlink s) := by
          have hp := create_symlink_post fs s t (by rw [hc])
          rw [hc] at hp
          exact hp
        have hself := hsep (s, t) (List.mem_cons_self _ _)
          (s, t) (List.mem_cons_self _ _)
        have hsrcA : fsLookup fsA s = some FsEntry.dir := by
          have hfr := create_symlink_frame fs s t s hself.2 hself.1
          rw [hc] at hfr
          rw [hfr]
          exact hdirs (s, t) (List.mem_cons_self _ _)
        have hdirsA : ∀ pr' ∈ rest, fsLookup fsA pr'.1 = some FsEntry.dir := by
          intro pr' hpr'
          have hsep2 := hsep (s, t) (List.mem_cons_self _ _)
            pr' (List.mem_cons_of_mem _ hpr')
          have hfr := create_symlink_frame fs s t pr'.1 hsep2.2 hsep2.1
          rw [hc] at hfr
          rw [hfr]
          exact hdirs pr' (List.mem_cons_of_mem _ hpr')
        have hsepA : ∀ pr' ∈ rest, ∀ pr'' ∈ rest,
            ¬ pr''.1 <+: pr'.2 ∧ ¬ pr'.2 <+: pr''.1 :=
          fun a ha b hb => hsep a (List.mem_cons_of_mem _ ha)
            b (List.mem_cons_of_mem _ hb)
        have hpwA := List.pairwise_cons.mp hpw
        cases List.mem_cons.mp hpr with
        | inl heq =>
          subst heq
          constructor
          · have hfr := softLinkPairs_frame rest fsA t
              (fun pr' hpr' =>
                ⟨(hpwA.1 pr' hpr').2, (hpwA.1 pr' hpr').1⟩)
            rw [hrun2] at hfr
            rw [hfr]
            exact hpost
          · have hfr := softLinkPairs_frame rest fsA s
              (fun pr' hpr' =>
                ⟨(hsep pr' (List.mem_cons_of_mem _ hpr')
                    (s, t) (List.mem_cons_self _ _)).2,
                 (hsep pr' (List.mem_cons_of_mem _ hpr')
                    (s, t) (List.mem_cons_self _ _)).1⟩)
            rw [hrun2] at hfr
            rw [hfr]
            exact hsrcA
        | inr hmem => exact ih fsA fs1 hdirsA hsepA hpwA.2 hrun2 pr hmem

theorem softLinkPairs_converged :
    ∀ (pairs : List (FsPath × FsPath)) (fs : Fs),
      (∀ pr ∈ pairs, fsLookup fs pr.2 = some (.symlink pr.1) ∧
        fsLookup fs pr.1 = some .dir) →
      softLinkPairs fs pairs = (fs, none) ∧
      ∀ pr ∈ pairs, should_skip_existing_link fs pr.1 pr.2 = true := by
  intro pairs
  induction pairs with
  | nil =>
    intro fs _
    exact ⟨rfl, fun pr hpr => absurd hpr (List.not_mem_nil _)⟩
  | cons hd rest ih =>
    intro fs h
    obtain ⟨s, t⟩ := hd
    have hh := h (s, t) (List.mem_cons_self _ _)
    have hconv := create_symlink_converged fs s t hh.1 hh.2
    have hskip := skip_of_converged fs s t hh.1 hh.2
    have hrest := ih fs (fun pr hpr => h pr (List.mem_cons_of_mem _ hpr))
    constructor
    · show (match create_symlink fs s t with
        | (fs1, none) => softLinkPairs fs1 rest
        | (fs1, some e) => (fs1, some e)) = (fs, none)
      rw [hconv]
      exact hrest.1
    · intro pr hpr
      cases List.mem_cons.mp hpr with
      | inl heq => subst heq; exact hskip
      | inr hmem => exact hrest.2 pr hmem

theorem softLinkPairs_append :
    ∀ (l1 l2 : List (FsPath × FsPath)) (fs : Fs),
      softLinkPairs fs (l1 ++ l2)
        = (match softLinkPairs fs l1 with
           | (fs1, none) => softLinkPairs fs1 l2
           | (fs1, some e) => (fs1, some e)) := by
  intro l1
  induction l1 with
  | nil => intro l2 fs; rfl
  | cons hd rest ih =>
    intro l2 fs
    obtain ⟨s, t⟩ := hd
    show (match create_symlink fs s t with
      | (fs1, none) => softLinkPairs fs1 (rest ++ l2)
      | (fs1, some e) => (fs1, some e)) = _
    have hstep : softLinkPairs fs ((s, t) :: rest)
        = (match create_symlink fs s t with
           | (fsA, none) => softLinkPairs fsA rest
           | (fsA, some e) => (fsA, some e)) := rfl
    rw [hstep]
    cases hc : create_symlink fs s t with
    | mk fsA e1 =>
      cases e1 with
      | none =>
        show softLinkPairs fsA (rest ++ l2) = _
        rw [ih]
      | some e => rfl

/-! ## Claim theorems -/

/-- C1 counterexample: for a starting cache document in which `p` is
already bound to `D0`, storing `D1` and then `D2` leaves `p` bound to `D0`,
not to the first stored digest `D1` — refuting the claim for arbitrary
starting documents. -/
theorem c1_counterexample :
    lookupDoc (readDoc (cache_model_hash "D2" ["p"]
      (cache_model_hash "D1" ["p"] (.doc [(["p"], "D0")])))) ["p"]
      = some "D0"
    ∧ ("D0" : String) ≠ "D1" ∧ ("D1" : String) ≠ "D2" :=
  ⟨rfl, by decide, by decide⟩

/-- C1 (amended): for every starting cache document in which `p` is not
yet bound, calling `store(d1, p)` and then `store(d2, p)` leaves the cache
mapping `p` to `d1`; and once a key is present in the cache document, no
later store call for the same key changes its value. -/
theorem c1_first_write_wins :
    (∀ (st : CacheFileState) (p : FsPath) (d1 d2 : String),
      lookupDoc (readDoc st) p = none →
      lookupDoc (readDoc (cache_model_hash d2 p (cache_model_hash d1 p st)))
        p = some d1) ∧
    (∀ (st : CacheFileState) (p : FsPath) (d v : String),
      lookupDoc (readDoc st) p = some v →
      lookupDoc (readDoc (cache_model_hash d p st)) p = some v) := by
  constructor
  · intro st p d1 d2 h
    have h1 : lookupDoc (readDoc (cache_model_hash d1 p st)) p = some d1 :=
      lookupDoc_insertIfAbsent_absent _ _ _ h
    show lookupDoc
      (insertIfAbsent (readDoc (cache_model_hash d1 p st)) p d2) p = some d1
    rw [insertIfAbsent_present _ _ _ _ h1]
    exact h1
  · intro st p d v h
    show lookupDoc (insertIfAbsent (readDoc st) p d) p = some v
    rw [insertIfAbsent_present _ _ _ _ h]
    exact h

/-- C1 witness: both parts of the amended claim evaluated on concrete
caches. -/
theorem c1_first_write_wins_witness :
    (lookupDoc (readDoc (.absent : CacheFileState)) ["p"] = none ∧
      lookupDoc (readDoc (cache_model_hash "D2" ["p"]
        (cache_model_hash "D1" ["p"] .absent))) ["p"] = some "D1") ∧
    (lookupDoc (readDoc (CacheFileState.doc [(["q"], "V")])) ["q"]
        = some "V" ∧
      lookupDoc (readDoc (cache_model_hash "D3" ["q"]
        (.doc [(["q"], "V")]))) ["q"] = some "V") :=
  ⟨⟨rfl, c1_first_write_wins.1 .absent ["p"] "D1" "D2" rfl⟩,
   ⟨rfl, c1_first_write_wins.2 (.doc [(["q"], "V")]) ["q"] "D3" "V" rfl⟩⟩

/-- C2 counterexample: when the cache file is absent, lookup returns the
`Io` error, which is not the `ModelNotFound` kind — refuting "returns
NotFound, never any other kind of error". -/
theorem c2_counterexample :
    (lookup_cached_model_hash ["m"] .absent).1 = .error (.io "IO error") ∧
    isModelNotFoundResult (lookup_cached_model_hash ["m"] .absent).1
      = false :=
  ⟨rfl, rfl⟩

/-- C2 (amended): for every path, when the cache file does not exist,
lookup returns an `Io` error (not the `ModelNotFound` kind, which is
reserved for a missing key) and does not create the cache file. -/
theorem c2_lookup_absent_io_error :
    ∀ p : FsPath,
      lookup_cached_model_hash p .absent
        = (.error (.io "IO error"), .absent) ∧
      isModelNotFoundResult (lookup_cached_model_hash p .absent).1
        = false :=
  fun _ => ⟨rfl, rfl⟩

/-- C3 counterexample: a body with exactly the required fields decodes,
but the same body with one additional unknown top-level field fails to
decode — refuting "unknown fields never cause resolution to fail". -/
theorem c3_counterexample :
    (decodeModelInfo (.obj minimalModelInfoFields)).isSome = true ∧
    decodeModelInfo (.obj (("extra", Json.null) :: minimalModelInfoFields))
      = none :=
  ⟨rfl, rfl⟩

/-- C3 (amended): omitting optional fields never fails deserialization (a
body with only the required fields decodes), but any unrecognized
top-level field causes deserialization of the body to fail, because
`ModelInfo` is declared with `deny_unknown_fields`. -/
theorem c3_deny_unknown_fields :
    (∀ (o : List (String × Json)) (k : String) (v : Json),
      knownModelInfoFields.contains k = false →
      decodeModelInfo (.obj ((k, v) :: o)) = none) ∧
    (decodeModelInfo (.obj minimalModelInfoFields)).isSome = true := by
  refine ⟨?_, rfl⟩
  intro o k v hk
  have hall : ((k, v) :: o).all
      (fun kv => knownModelInfoFields.contains kv.1) = false := by
    rw [List.all_cons]
    show (knownModelInfoFields.contains k && _) = false
    rw [hk]
    rfl
  simp only [decodeModelInfo, hall]
  split <;> simp

/-- C3 witness: the unknown-field rejection evaluated on a concrete
body. -/
theorem c3_deny_unknown_fields_witness :
    knownModelInfoFields.contains "extra" = false ∧
    decodeModelInfo (.obj (("extra", Json.null) :: minimalModelInfoFields))
      = none :=
  ⟨rfl, c3_deny_unknown_fields.1 minimalModelInfoFields "extra" Json.null
    rfl⟩

/-- C4 counterexample: with the canonical category paths absent from the
filesystem, the first reconciliation run succeeds (creating dangling
symlinks) but the second run fails with `EEXIST` — refuting idempotence
for arbitrary taxonomies and filesystem states. -/
theorem c4_counterexample :
    (soft_link_to c4Canonical c4Satellite []).2 = none ∧
    (soft_link_to c4Canonical c4Satellite
      (soft_link_to c4Canonical c4Satellite []).1).2 = some "EEXIST" :=
  ⟨rfl, rfl⟩

/-- C4 (amended): provided every canonical category path is a directory,
no category path lies at or under another category's source or target
path, and the first soft-link reconciliation run succeeds, then a second
run with unchanged taxonomies returns success, leaves the filesystem
identical, and takes the already-converged skip path (no removal, no link
creation) for every category. -/
theorem c4_reconcile_idempotent :
    ∀ (canonical target : FolderStructure) (fs0 fs1 : Fs),
      (∀ pr ∈ linkPairs canonical target, fsLookup fs0 pr.1 = some .dir) →
      (∀ pr ∈ linkPairs canonical target,
        ∀ pr' ∈ linkPairs canonical target,
        ¬ pr'.1 <+: pr.2 ∧ ¬ pr.2 <+: pr'.1) →
      List.Pairwise (fun pr pr' => ¬ pr.2 <+: pr'.2 ∧ ¬ pr'.2 <+: pr.2)
        (linkPairs canonical target) →
      soft_link_to canonical target fs0 = (fs1, none) →
      soft_link_to canonical target fs1 = (fs1, none) ∧
      ∀ pr ∈ linkPairs canonical target,
        should_skip_existing_link fs1 pr.1 pr.2 = true := by
  intro a b fs0 fs1 hdirs hsep hpw hrun
  exact softLinkPairs_converged (linkPairs a b) fs1
    (softLinkPairs_success_post (linkPairs a b) fs0 fs1 hdirs hsep hpw hrun)

/-- C4 witness: the amended idempotence claim evaluated on a concrete
taxonomy pair whose canonical categories exist. -/
theorem c4_reconcile_idempotent_witness :
    (∀ pr ∈ linkPairs c4Canonical c4Satellite,
      fsLookup c4SourceFs pr.1 = some .dir) ∧
    (soft_link_to c4Canonical c4Satellite c4SourceFs).2 = none ∧
    soft_link_to c4Canonical c4Satellite
        (soft_link_to c4Canonical c4Satellite c4SourceFs).1
      = ((soft_link_to c4Canonical c4Satellite c4SourceFs).1, none) ∧
    ∀ pr ∈ linkPairs c4Canonical c4Satellite,
      should_skip_existing_link
        (soft_link_to c4Canonical c4Satellite c4SourceFs).1 pr.1 pr.2
        = true := by
  have h := c4_reconcile_idempotent c4Canonical c4Satellite c4SourceFs
    (soft_link_to c4Canonical c4Satellite c4SourceFs).1
    (by decide) (by decide) (by decide)
    (Prod.ext rfl (by decide))
  exact ⟨by decide, by decide, h.1, h.2⟩

/-- C5: reconciliation replaces a regular file, a directory (recursively)
and a live symlink pointing elsewhere with a symlink to the canonical
path, as the claim states; but when the existing target is a symlink whose
referent no longer exists, `target.exists()` follows the link and reports
false, so the stale link is not removed and symlink creation fails with
`EEXIST`, leaving the dangling link in place — the code contradicts the
claim (and the program's convergence intent) on that input. -/
theorem c5_remove_and_relink :
    ((create_symlink c5FsFile c5Source c5Target).2 = none ∧
     fsLookup (create_symlink c5FsFile c5Source c5Target).1 c5Target
       = some (.symlink c5Source)) ∧
    ((create_symlink c5FsDir c5Source c5Target).2 = none ∧
     fsLookup (create_symlink c5FsDir c5Source c5Target).1 c5Target
       = some (.symlink c5Source) ∧
     fsLookup (create_symlink c5FsDir c5Source c5Target).1
       (c5Target ++ ["x"]) = none) ∧
    ((create_symlink c5FsLive c5Source c5Target).2 = none ∧
     fsLookup (create_symlink c5FsLive c5Source c5Target).1 c5Target
       = some (.symlink c5Source)) ∧
    ((create_symlink c5FsDangling c5Source c5Target).2 = some "EEXIST" ∧
     fsLookup (create_symlink c5FsDangling c5Source c5Target).1 c5Target
       = some (.symlink ["gone"])) :=
  ⟨⟨rfl, rfl⟩, ⟨rfl, rfl, rfl⟩, ⟨rfl, rfl⟩, ⟨rfl, rfl⟩⟩

/-- C6: for every file whose cache lookup misses, whose hash computation
succeeds, and whose metadata resolution fails, one pipeline iteration
leaves the set of files unchanged (no rename), the cache has gained the
entry mapping the file's path to its digest, and the batch fold continues
with the remaining files. -/
theorem c6_resolution_failure_leaves_file :
    ∀ (resolver : String → HttpOutcome)
      (hasher : FsPath → Except String String) (root : FsPath)
      (w : PipeWorld) (path : FsPath) (rest : List FsPath) (d : String),
      (lookup_cached_model_hash path w.cache).1.isOk = false →
      hasher path = .ok d →
      (query_model_info (resolver d)).isOk = false →
      (processOne resolver hasher root w path).files = w.files ∧
      lookupDoc (readDoc (processOne resolver hasher root w path).cache)
        path = some d ∧
      (path :: rest).foldl (processOne resolver hasher root) w
        = rest.foldl (processOne resolver hasher root)
            (processOne resolver hasher root w path) := by
  intro resolver hasher root w path rest d hmiss hhash hfail
  have hmiss2 : ∃ e, (lookup_cached_model_hash path w.cache).1
      = .error e := by
    cases hl : (lookup_cached_model_hash path w.cache).1 with
    | ok v => rw [hl] at hmiss; simp [Except.isOk, Except.toBool] at hmiss
    | error e => exact ⟨e, rfl⟩
  obtain ⟨e, he⟩ := hmiss2
  have hq : ∃ ce, query_model_info (resolver d) = .error ce := by
    cases hqq : query_model_info (resolver d) with
    | ok v => rw [hqq] at hfail; simp [Except.isOk, Except.toBool] at hfail
    | error ce => exact ⟨ce, rfl⟩
  obtain ⟨ce, hce⟩ := hq
  have hgm : get_model_info resolver hasher path w.cache
      = (.error (.civitAiError ce.toMessage),
         cache_model_hash d path w.cache) := by
    unfold get_model_info
    rw [he, hhash]
    show (toAPIResult (query_model_info (resolver d)),
      cache_model_hash d path w.cache) = _
    rw [hce]
    rfl
  refine ⟨?_, ?_, rfl⟩
  · simp [processOne, hgm]
  · have hcache : (processOne resolver hasher root w path).cache
        = cache_model_hash d path w.cache := by
      simp [processOne, hgm]
    rw [hcache]
    exact lookupDoc_insertIfAbsent_absent _ _ _
      (cacheMiss_of_lookup_error path w.cache hmiss)

/-- C6 witness: a 404 resolver on a one-file world with no cache file. -/
theorem c6_resolution_failure_leaves_file_witness :
    ((lookup_cached_model_hash ["root", "m.safetensors"]
        (PipeWorld.mk .absent [["root", "m.safetensors"]]).cache).1.isOk
      = false) ∧
    ((processOne (fun _ => .response 404 .null) (fun _ => .ok "ABCD")
        ["root"] (PipeWorld.mk .absent [["root", "m.safetensors"]])
        ["root", "m.safetensors"]).files
      = [["root", "m.safetensors"]]) ∧
    (lookupDoc (readDoc (processOne (fun _ => .response 404 .null)
        (fun _ => .ok "ABCD") ["root"]
        (PipeWorld.mk .absent [["root", "m.safetensors"]])
        ["root", "m.safetensors"]).cache) ["root", "m.safetensors"]
      = some "ABCD") := by
  have h := c6_resolution_failure_leaves_file (fun _ => .response 404 .null)
    (fun _ => .ok "ABCD") ["root"]
    (PipeWorld.mk .absent [["root", "m.safetensors"]])
    ["root", "m.safetensors"] [] "ABCD" rfl rfl rfl
  exact ⟨rfl, h.1, h.2.1⟩

/-- C7: for every source path with a filename component, relocation moves
the file to exactly `destination / kindDir / lineageDir / fileName`, where
`kindDir` is the fixed table (checkpoints, embeddings, loras, controlnet,
upscale_models, vae) and `lineageDir` is the lower-cased lineage label,
with the fallback label "Other" (lower-cased to "other") when the lineage
is absent. -/
theorem c7_relocation_destination :
    (∀ (files : List FsPath) (orphan destination : FsPath) (mt : ModelType)
       (base : String) (f : String),
      fileName orphan = some f → files.contains orphan = true →
      move_orphan_model files orphan destination mt base
        = .ok ((destination ++ [mt.general_directory, toLowercase base, f])
            :: files.erase orphan)) ∧
    (ModelType.general_directory .checkpoint = "checkpoints" ∧
     ModelType.general_directory .embedding = "embeddings" ∧
     ModelType.general_directory .lora = "loras" ∧
     ModelType.general_directory .controlnet = "controlnet" ∧
     ModelType.general_directory .upscaler = "upscale_models" ∧
     ModelType.general_directory .vae = "vae") ∧
    (toLowercase (baseModelFallback none) = "other" ∧
     toLowercase "SD 1.5" = "sd 1.5") := by
  refine ⟨?_, ⟨rfl, rfl, rfl, rfl, rfl, rfl⟩, rfl, rfl⟩
  intro files orphan destination mt base f hf hc
  simp [move_orphan_model, hf, hc]
  simpa using hc

/-- C7 witness: `Checkpoint` with lineage "SD 1.5" relocates into
`checkpoints/sd 1.5`, and `LoRA` with no lineage relocates into
`loras/other`. -/
theorem c7_relocation_destination_witness :
    fileName ["root", "model.safetensors"] = some "model.safetensors" ∧
    [["root", "model.safetensors"]].contains ["root", "model.safetensors"]
      = true ∧
    move_orphan_model [["root", "model.safetensors"]]
        ["root", "model.safetensors"] ["root"] .checkpoint "SD 1.5"
      = .ok [["root", "checkpoints", "sd 1.5", "model.safetensors"]] ∧
    move_orphan_model [["root", "model.safetensors"]]
        ["root", "model.safetensors"] ["root"] .lora (baseModelFallback none)
      = .ok [["root", "loras", "other", "model.safetensors"]] := by
  refine ⟨rfl, rfl, ?_, ?_⟩
  · exact (c7_relocation_destination.1 [["root", "model.safetensors"]]
      ["root", "model.safetensors"] ["root"] .checkpoint "SD 1.5"
      "model.safetensors" rfl rfl).trans (by rfl)
  · exact (c7_relocation_destination.1 [["root", "model.safetensors"]]
      ["root", "model.safetensors"] ["root"] .lora (baseModelFallback none)
      "model.safetensors" rfl rfl).trans (by rfl)

/-- C8: for every readable root, the scan succeeds and returns exactly the
direct entries that are readable, are not directories, and have a
whitelisted extension (in listing order); in particular a root with
`a.safetensors`, an unreadable entry, `b.json` and a subdirectory `c`
yields exactly `[a.safetensors]`. -/
theorem c8_scanner_whitelist :
    (∀ (root : FsPath) (entries : List (Option DirEntryModel)),
      get_orphan_models root (some entries)
        = .ok (scanSpecList root entries)) ∧
    (∀ root : FsPath,
      get_orphan_models root (some
        [some ⟨"a.safetensors", false⟩, none, some ⟨"b.json", false⟩,
         some ⟨"c", true⟩])
        = .ok [root ++ ["a.safetensors"]]) := by
  constructor
  · intro root entries
    induction entries with
    | nil => rfl
    | cons h t ih =>
      cases h with
      | none => exact ih
      | some e =>
        show Except.ok _ = _
        cases hb : (if !e.is_dir
            then allowedExtensions.contains ((extensionOf e.name).getD "")
            else false) with
        | true =>
          have hok := ih
          simp only [get_orphan_models] at hok ⊢
          simp only [List.filterMap_cons, id, List.filter_cons]
          rw [hb, scanSpecList, hb, if_pos rfl, if_pos rfl, List.map_cons]
          injection hok with hok2
          rw [hok2]
        | false =>
          simp only [get_orphan_models] at ih ⊢
          simp only [List.filterMap_cons, id, List.filter_cons]
          rw [hb, scanSpecList, hb, if_neg Bool.false_ne_true,
            if_neg Bool.false_ne_true]
          exact ih
  · intro root
    rfl

/-- C9 counterexample: the results for an HTTP 500, an HTTP 404, and a
transport failure all carry the same `CivitAiError` variant
(`Unspecified`), so 5xx is not a failure kind the caller can distinguish
from "model not found / unreachable" at the error-kind level. -/
theorem c9_counterexample :
    errVariantTag (query_model_info (.response 500 .null)) = some false ∧
    errVariantTag (query_model_info (.response 404 .null)) = some false ∧
    errVariantTag (query_model_info .transportError) = some false :=
  ⟨rfl, rfl, rfl⟩

/-- C9 (amended): every failure path returns the `Unspecified` variant;
an HTTP 5xx is distinguishable only by its message
`"Civitai Error: {status}"`, while every other non-success status yields
the message `"Model not found"` and a transport-level failure yields
`"Failed to query Civitai"`; the 5xx message differs from both. -/
theorem c9_failure_classification :
    (∀ (s : Nat) (b : Json), 500 ≤ s → s ≤ 599 →
      query_model_info (.response s b)
        = .error (.unspecified ("Civitai Error: " ++ statusDisplay s))) ∧
    (∀ (s : Nat) (b : Json), ¬(200 ≤ s ∧ s ≤ 299) → ¬(500 ≤ s ∧ s ≤ 599) →
      query_model_info (.response s b)
        = .error (.unspecified "Model not found")) ∧
    (query_model_info .transportError
      = .error (.unspecified "Failed to query Civitai")) ∧
    (∀ t : String,
      "Civitai Error: " ++ t ≠ "Model not found" ∧
      "Civitai Error: " ++ t ≠ "Failed to query Civitai") := by
  refine ⟨?_, ?_, rfl, ?_⟩
  · intro s b h5 h5'
    have hn : ¬(200 ≤ s ∧ s ≤ 299) := by omega
    simp [query_model_info, hn, h5, h5']
  · intro s b hn h5
    simp [query_model_info, hn, h5]
  · intro t
    constructor
    · intro h
      have h2 : "Civitai Error: ".data ++ t.data = "Model not found".data :=
        congrArg String.data h
      simp at h2
    · intro h
      have h2 : "Civitai Error: ".data ++ t.data
          = "Failed to query Civitai".data := congrArg String.data h
      simp at h2

/-- C9 witness: the classification evaluated at status 500 and 404. -/
theorem c9_failure_classification_witness :
    query_model_info (.response 500 .null)
      = .error (.unspecified ("Civitai Error: " ++ statusDisplay 500)) ∧
    query_model_info (.response 404 .null)
      = .error (.unspecified "Model not found") ∧
    "Civitai Error: " ++ statusDisplay 500 ≠ "Model not found" :=
  ⟨c9_failure_classification.1 500 .null (by decide) (by decide),
   c9_failure_classification.2.1 404 .null (by decide) (by decide),
   (c9_failure_classification.2.2.2 (statusDisplay 500)).1⟩

/-- C10: soft-link reconciliation processes the six categories in the
fixed order checkpoints, loras, controlnet, upscale_models, vae,
embeddings; when the categories before some pair succeed and that pair's
reconciliation fails, the run returns that error immediately, and every
later category whose target path does not overlap the already-processed
paths is left untouched (neither removed nor linked). -/
theorem c10_category_order_and_first_failure :
    ∀ (canonical target : FolderStructure),
      (linkPairs canonical target
        = [(canonical.checkpoints, target.checkpoints),
           (canonical.loras, target.loras),
           (canonical.controlnet, target.controlnet),
           (canonical.upscale_models, target.upscale_models),
           (canonical.vae, target.vae),
           (canonical.embeddings, target.embeddings)]) ∧
      ∀ (pre post : List (FsPath × FsPath)) (s t : FsPath) (e : String)
        (fs fsPre : Fs),
        linkPairs canonical target = pre ++ (s, t) :: post →
        softLinkPairs fs pre = (fsPre, none) →
        (create_symlink fsPre s t).2 = some e →
        soft_link_to canonical target fs
          = ((create_symlink fsPre s t).1, some e) ∧
        ∀ pr ∈ post,
          (∀ q ∈ pre, ¬ q.2 <+: pr.2 ∧ ¬ pr.2 <+: q.2) →
          ¬ t <+: pr.2 → ¬ pr.2 <+: t →
          fsLookup (create_symlink fsPre s t).1 pr.2 = fsLookup fs pr.2 := by
  intro a b
  refine ⟨rfl, ?_⟩
  intro pre post s t e fs fsPre hdecomp hpre hfail
  constructor
  · show softLinkPairs fs (linkPairs a b) = _
    rw [hdecomp, softLinkPairs_append, hpre]
    show (match create_symlink fsPre s t with
      | (fs1, none) => softLinkPairs fs1 post
      | (fs1, some e) => (fs1, some e)) = _
    cases hc : create_symlink fsPre s t with
    | mk fsA e1 =>
      rw [hc] at hfail
      cases e1 with
      | none => exact absurd hfail (by simp)
      | some e2 =>
        have he2 : e2 = e := by
          have hse : (some e2 : Option String) = some e := hfail
          exact Option.some.inj hse
        subst he2
        rfl
  · intro pr hpr hq h1 h2
    have hfr1 : fsLookup (create_symlink fsPre s t).1 pr.2
        = fsLookup fsPre pr.2 := create_symlink_frame fsPre s t pr.2 h1 h2
    have hfr2 : fsLookup (softLinkPairs fs pre).1 pr.2
        = fsLookup fs pr.2 := softLinkPairs_frame pre fs pr.2 hq
    rw [hpre] at hfr2
    rw [hfr1]
    exact hfr2

/-- C10 witness: checkpoints succeeds, loras fails on a dangling target
symlink, the run stops with that error, and the controlnet target file is
untouched. -/
theorem c10_category_order_and_first_failure_witness :
    (softLinkPairs c10Fs c10Pre).2 = none ∧
    (create_symlink c10FsPre ["m", "loras"] ["c", "loras"]).2
      = some "EEXIST" ∧
    soft_link_to c10Canonical c10Satellite c10Fs
      = ((create_symlink c10FsPre ["m", "loras"] ["c", "loras"]).1,
         some "EEXIST") ∧
    fsLookup (create_symlink c10FsPre ["m", "loras"] ["c", "loras"]).1
        ["c", "controlnet"]
      = fsLookup c10Fs ["c", "controlnet"] := by
  have h := (c10_category_order_and_first_failure c10Canonical
      c10Satellite).2
    c10Pre c10Post ["m", "loras"] ["c", "loras"] "EEXIST" c10Fs c10FsPre
    rfl (Prod.ext rfl (by decide)) (by decide)
  refine ⟨by decide, by decide, h.1, ?_⟩
  exact h.2 (["m", "controlnet"], ["c", "controlnet"]) (by decide)
    (by decide) (by decide) (by decide)

end SdModelSync
